import Mathlib

set_option maxHeartbeats 1000000

/-!
Verification of the pitivi timeline core against its specification.

Shallow embedding of:
* `pitivi/timeline/previewers.py` — `PreviewGeneratorManager`,
  `ThumbnailCache`, `PipelineCpuAdapter`, the error path of `AudioPreviewer`;
* `pitivi/undo/timeline.py` — the undoable actions, the property change
  tracker guard, and `TimelineLogObserver` start/stop observing.

External GStreamer / GES / GTK objects are modelled by the state the code
reads and writes through them (queues, dictionaries, signal connections,
attribute values).
-/

namespace Pitivi

/-- Python exceptions relevant to the embedded code. -/
inductive PyErr where
  | keyError
  | nameError
deriving DecidableEq, Repr

namespace Previewers

/-- Track types keying the manager queues (`GES.TrackType.AUDIO` /
`GES.TrackType.VIDEO` in `previewers.py`). -/
inductive TrackType where
  | audio
  | video
deriving DecidableEq, Repr

/-- A preview-generation job (a `PreviewGenerator` instance): an identity plus
its `track_type` attribute, set in `PreviewGenerator.__init__`. -/
structure Job where
  jid : Nat
  track_type : TrackType
deriving DecidableEq, Repr

/-- State of `PreviewGeneratorManager`: `_cpipeline` maps a track type to the
currently controlled generator (a missing dict key is `none`), `_pipelines`
maps a track type to the list of queued generators. -/
structure PGMState where
  cpipeline : TrackType → Option Job
  pipelines : TrackType → List Job

/-- Initial manager state (`__init__`): no controlled generator, empty
queues for both track types. -/
def PGMState.init : PGMState := ⟨fun _ => none, fun _ => []⟩

/-- Pointwise update of a track-type-keyed dictionary. -/
def upd {α : Type} (f : TrackType → α) (tt : TrackType) (v : α) : TrackType → α :=
  fun t => if t = tt then v else f t

theorem upd_same {α : Type} {f : TrackType → α} {tt : TrackType} {v : α} :
    upd f tt v tt = v := by
  simp [upd]

theorem upd_other {α : Type} {f : TrackType → α} {tt t : TrackType} {v : α} (h : t ≠ tt) :
    upd f tt v t = f t := by
  simp [upd, h]

/-- The method `PreviewGeneratorManager._setPipeline`: record `p` as the
controlled generator of its track type, connect the "done" handler to it and
start its generation (the latter two are external effects). -/
def setPipeline (s : PGMState) (p : Job) : PGMState :=
  { s with cpipeline := upd s.cpipeline p.track_type (some p) }

/-- The method `PreviewGeneratorManager.addPipeline`. -/
def addPipeline (s : PGMState) (p : Job) : PGMState :=
  if p ∈ s.pipelines p.track_type ∨ s.cpipeline p.track_type = some p then
    -- Already in the queue or already processing.
    s
  else if s.pipelines p.track_type = [] ∧ s.cpipeline p.track_type = none then
    setPipeline s p
  else
    { s with pipelines := upd s.pipelines p.track_type (p :: s.pipelines p.track_type) }

/-- The method `PreviewGeneratorManager._nextPipeline`, handler of the "done"
signal of the controlled generator `c`: pop the `_cpipeline` entry (and
disconnect the handler), then, if the queue of that track type is non-empty,
`pop()` its last element and make it controlled. -/
def nextPipeline (s : PGMState) (c : Job) : PGMState :=
  match (s.pipelines c.track_type).getLast? with
  | none => { s with cpipeline := upd s.cpipeline c.track_type none }
  | some p =>
      setPipeline
        { cpipeline := upd s.cpipeline c.track_type none,
          pipelines := upd s.pipelines c.track_type (s.pipelines c.track_type).dropLast }
        p

/-- Events driving the manager: a generator is handed to `addPipeline`
(`becomeControlled`), or a generator emits "done".  The manager reacts to
"done" only when the emitter is the controlled generator of its track type,
because `_setPipeline` connects `_nextPipeline` exactly to the generator it
makes controlled and `_nextPipeline` disconnects it again. -/
inductive PGMEvent where
  | add (p : Job)
  | done (p : Job)

/-- One manager transition. -/
def pgmStep (s : PGMState) : PGMEvent → PGMState
  | .add p => addPipeline s p
  | .done p => if s.cpipeline p.track_type = some p then nextPipeline s p else s

/-- States reachable from the initial manager state by `addPipeline` calls and
"done" deliveries. -/
inductive PGMReachable : PGMState → Prop where
  | init : PGMReachable PGMState.init
  | step {s : PGMState} (e : PGMEvent) : PGMReachable s → PGMReachable (pgmStep s e)

/-- Inductive invariant of the manager state. -/
def PGMInv (s : PGMState) : Prop :=
  ∀ tt : TrackType,
    (∀ p ∈ s.pipelines tt, p.track_type = tt) ∧
    (∀ p : Job, s.cpipeline tt = some p → p.track_type = tt) ∧
    (∀ p ∈ s.pipelines tt, s.cpipeline tt ≠ some p) ∧
    (s.pipelines tt ≠ [] → s.cpipeline tt ≠ none) ∧
    (s.pipelines tt).Nodup

theorem pgmInv_init : PGMInv PGMState.init := by
  intro tt
  simp [PGMState.init]

theorem pgmInv_add (s : PGMState) (p : Job) (h : PGMInv s) : PGMInv (addPipeline s p) := by
  intro tt
  obtain ⟨h1, h2, h3, h4, h5⟩ := h tt
  unfold addPipeline setPipeline
  split
  · exact ⟨h1, h2, h3, h4, h5⟩
  next hmem =>
    push_neg at hmem
    split
    next hempty =>
      dsimp only
      by_cases htt : tt = p.track_type
      · subst htt
        simp only [upd_same]
        refine ⟨h1, ?_, ?_, ?_, h5⟩
        · intro q hq
          cases hq
          rfl
        · intro q hq
          rw [hempty.1] at hq
          simp at hq
        · intro _
          simp
      · simp only [upd_other htt]
        exact ⟨h1, h2, h3, h4, h5⟩
    next hfull =>
      dsimp only
      by_cases htt : tt = p.track_type
      · subst htt
        simp only [upd_same]
        refine ⟨?_, h2, ?_, ?_, ?_⟩
        · intro q hq
          rcases List.mem_cons.mp hq with hq | hq
          · subst hq
            rfl
          · exact h1 q hq
        · intro q hq
          rcases List.mem_cons.mp hq with hq | hq
          · subst hq
            exact hmem.2
          · exact h3 q hq
        · intro _
          rcases Classical.em (s.pipelines p.track_type = []) with he | he
          · exact fun hc => hfull ⟨he, hc⟩
          · exact h4 he
        · exact List.Nodup.cons hmem.1 h5
      · simp only [upd_other htt]
        exact ⟨h1, h2, h3, h4, h5⟩

theorem pgmInv_done (s : PGMState) (c : Job) (h : PGMInv s)
    (hc : s.cpipeline c.track_type = some c) :
    PGMInv (nextPipeline s c) := by
  unfold nextPipeline setPipeline
  cases hL : (s.pipelines c.track_type).getLast? with
  | none =>
    have hnil : s.pipelines c.track_type = [] := List.getLast?_eq_none_iff.mp hL
    intro tt
    obtain ⟨h1, h2, h3, h4, h5⟩ := h tt
    dsimp only
    by_cases htt : tt = c.track_type
    · subst htt
      simp only [upd_same]
      refine ⟨h1, ?_, ?_, ?_, h5⟩
      · intro q hq
        cases hq
      · intro q hq
        simp
      · intro hne
        exact absurd hnil hne
    · simp only [upd_other htt]
      exact ⟨h1, h2, h3, h4, h5⟩
  | some q =>
    obtain ⟨l, hl⟩ : ∃ l, s.pipelines c.track_type = l ++ [q] := by
      rcases List.getLast?_eq_some_iff.mp hL with ⟨l, hl⟩
      exact ⟨l, hl⟩
    have hqmem : q ∈ s.pipelines c.track_type := by
      rw [hl]
      simp
    have hqtt : q.track_type = c.track_type := (h c.track_type).1 q hqmem
    have hdrop : (s.pipelines c.track_type).dropLast = l := by
      rw [hl]
      simp
    have h5c : (l ++ [q]).Nodup := by
      have := (h c.track_type).2.2.2.2
      rwa [hl] at this
    have hqnl : q ∉ l := by
      rcases List.nodup_append.mp h5c with ⟨-, -, hdisj⟩
      intro hmem
      exact hdisj hmem (by simp)
    intro tt
    obtain ⟨h1, h2, h3, h4, h5⟩ := h tt
    dsimp only
    rw [hqtt]
    by_cases htt : tt = c.track_type
    · subst htt
      simp only [upd_same, hdrop]
      refine ⟨?_, ?_, ?_, ?_, ?_⟩
      · intro r hr
        exact h1 r (by rw [hl]; exact List.mem_append_left _ hr)
      · intro r hr
        cases hr
        exact hqtt
      · intro r hr hcon
        cases hcon
        exact hqnl hr
      · intro _
        simp
      · exact (List.nodup_append.mp h5c).1
    · simp only [upd_other htt]
      exact ⟨h1, h2, h3, h4, h5⟩

theorem pgmInv_of_reachable {s : PGMState} (h : PGMReachable s) : PGMInv s := by
  induction h with
  | init => exact pgmInv_init
  | step e hr ih =>
    rename_i t
    cases e with
    | add p => exact pgmInv_add _ p ih
    | done p =>
      show PGMInv (if t.cpipeline p.track_type = some p then nextPipeline t p else t)
      by_cases hc : t.cpipeline p.track_type = some p
      · rw [if_pos hc]
        exact pgmInv_done _ p ih hc
      · rw [if_neg hc]
        exact ih

/-- Number of controlled generators the manager holds for a track type
(the `_cpipeline` dict holds at most one entry per key). -/
def controlledCount (s : PGMState) (tt : TrackType) : Nat :=
  ((s.cpipeline tt).toList).length

/-- Boolean check that no queued generator is simultaneously the controlled
generator of its track type. -/
def controlledNotQueued (s : PGMState) : Bool :=
  ((s.pipelines TrackType.audio).all fun p =>
      decide (s.cpipeline TrackType.audio ≠ some p)) &&
  ((s.pipelines TrackType.video).all fun p =>
      decide (s.cpipeline TrackType.video ≠ some p))

/-- C3: in every state reachable by `addPipeline` and "done" events on a
`PreviewGeneratorManager`, each track type has at most one controlled job,
and a controlled job is never simultaneously present in the pending queue of
its track type. -/
theorem pgm_at_most_one_controlled {s : PGMState} (hr : PGMReachable s) :
    (controlledCount s TrackType.audio ≤ 1 ∧ controlledCount s TrackType.video ≤ 1) ∧
    controlledNotQueued s = true := by
  have h := pgmInv_of_reachable hr
  constructor
  · constructor <;> { unfold controlledCount; cases (s.cpipeline _) <;> simp }
  · unfold controlledNotQueued
    rw [Bool.and_eq_true]
    constructor <;>
      { rw [List.all_eq_true]
        intro p hp
        exact decide_eq_true ((h _).2.2.1 p hp) }

/-- Concrete jobs used to exercise the manager. -/
def j1 : Job := ⟨1, TrackType.video⟩

def j2 : Job := ⟨2, TrackType.video⟩

def j3 : Job := ⟨3, TrackType.video⟩

/-- Manager state after `addPipeline(j1)`. -/
def sA : PGMState := pgmStep PGMState.init (PGMEvent.add j1)

/-- Manager state after `addPipeline(j1); addPipeline(j2)`. -/
def sB : PGMState := pgmStep sA (PGMEvent.add j2)

/-- Manager state after `addPipeline(j1); addPipeline(j2); addPipeline(j3)`. -/
def sC : PGMState := pgmStep sB (PGMEvent.add j3)

theorem reachA : PGMReachable sA :=
  PGMReachable.step _ PGMReachable.init

theorem reachB : PGMReachable sB :=
  PGMReachable.step _ reachA

theorem reachC : PGMReachable sC :=
  PGMReachable.step _ reachB

/-- Witness for C3 at the concrete reachable state `sC`. -/
theorem pgm_at_most_one_controlled_witness :
    (controlledCount sC TrackType.audio ≤ 1 ∧ controlledCount sC TrackType.video ≤ 1) ∧
    controlledNotQueued sC = true :=
  pgm_at_most_one_controlled reachC

/-- C4: `addPipeline(job)` is a no-op when `job` is already controlled or
already queued for its track type; when no job is controlled for that track
type the job becomes controlled immediately (and generation starts, via
`_setPipeline`); otherwise the job is inserted at the head of the pending
list; and on a "done" event of the controlled job the manager promotes the
job popped from the tail of that list. -/
theorem addPipeline_nextPipeline_spec (s : PGMState) (p c q : Job) (l : List Job)
    (hr : PGMReachable s) :
    ((p ∈ s.pipelines p.track_type ∨ s.cpipeline p.track_type = some p) →
        addPipeline s p = s) ∧
    (s.cpipeline p.track_type = none →
        (addPipeline s p).cpipeline p.track_type = some p ∧
        (addPipeline s p).pipelines p.track_type = s.pipelines p.track_type) ∧
    (s.cpipeline p.track_type ≠ none → s.cpipeline p.track_type ≠ some p →
        p ∉ s.pipelines p.track_type →
        (addPipeline s p).pipelines p.track_type = p :: s.pipelines p.track_type ∧
        (addPipeline s p).cpipeline p.track_type = s.cpipeline p.track_type) ∧
    (s.cpipeline c.track_type = some c → s.pipelines c.track_type = l ++ [q] →
        (pgmStep s (PGMEvent.done c)).cpipeline c.track_type = some q ∧
        (pgmStep s (PGMEvent.done c)).pipelines c.track_type = l) := by
  have hinv := pgmInv_of_reachable hr
  refine ⟨?_, ?_, ?_, ?_⟩
  · intro hknown
    unfold addPipeline
    rw [if_pos hknown]
  · intro hnone
    have hempty : s.pipelines p.track_type = [] := by
      by_contra hne
      exact (hinv p.track_type).2.2.2.1 hne hnone
    unfold addPipeline
    rw [if_neg (by simp [hempty, hnone]), if_pos ⟨hempty, hnone⟩]
    unfold setPipeline
    exact ⟨upd_same, rfl⟩
  · intro hsome hnotp hnotq
    unfold addPipeline
    rw [if_neg (by simp [hnotp, hnotq]), if_neg (by simp [hsome])]
    exact ⟨upd_same, rfl⟩
  · intro hc hl
    show (if s.cpipeline c.track_type = some c then nextPipeline s c else s).cpipeline
          c.track_type = some q ∧
        (if s.cpipeline c.track_type = some c then nextPipeline s c else s).pipelines
          c.track_type = l
    rw [if_pos hc]
    have hqtt : q.track_type = c.track_type :=
      (hinv c.track_type).1 q (by rw [hl]; simp)
    unfold nextPipeline
    rw [hl, List.getLast?_concat]
    unfold setPipeline
    dsimp only
    rw [hqtt]
    constructor
    · exact upd_same
    · rw [upd_same]
      simp

/-- Witness for C4: the four behaviours at concrete reachable states
(`sB` already contains `j2` in the queue, the initial state has no controlled
video job, `sA` has `j1` controlled and an empty queue, and `sC` has queue
`[j3, j2]` with `j1` controlled). -/
theorem addPipeline_nextPipeline_spec_witness :
    (addPipeline sB j2 = sB) ∧
    ((addPipeline PGMState.init j1).cpipeline j1.track_type = some j1 ∧
      (addPipeline PGMState.init j1).pipelines j1.track_type =
        PGMState.init.pipelines j1.track_type) ∧
    ((addPipeline sA j2).pipelines j2.track_type = j2 :: sA.pipelines j2.track_type ∧
      (addPipeline sA j2).cpipeline j2.track_type = sA.cpipeline j2.track_type) ∧
    ((pgmStep sC (PGMEvent.done j1)).cpipeline j1.track_type = some j2 ∧
      (pgmStep sC (PGMEvent.done j1)).pipelines j1.track_type = [j3]) :=
  ⟨(addPipeline_nextPipeline_spec sB j2 j1 j1 [] reachB).1 (by decide),
   (addPipeline_nextPipeline_spec PGMState.init j1 j1 j1 [] PGMReachable.init).2.1
     (by decide),
   (addPipeline_nextPipeline_spec sA j2 j1 j1 [] reachA).2.2.1
     (by decide) (by decide) (by decide),
   (addPipeline_nextPipeline_spec sC j2 j1 j2 [j3] reachC).2.2.2
     (by decide) (by decide)⟩

namespace Cache

/-- Rows of the per-asset SQLite table
`Thumbs(Time INTEGER NOT NULL PRIMARY KEY, Jpeg BLOB NOT NULL)` created by
`ThumbnailCache.__init__`, modelled as the list of rows in insertion order;
`β` is the type of encoded image blobs. -/
def deleteRows {β : Type} (t : List (Nat × β)) (k : Nat) : List (Nat × β) :=
  t.filter (fun r => decide (r.1 ≠ k))

/-- SQL `INSERT INTO Thumbs VALUES (?,?)`. -/
def insertRow {β : Type} (t : List (Nat × β)) (k : Nat) (b : β) : List (Nat × β) :=
  t ++ [(k, b)]

/-- SQL `SELECT * FROM Thumbs WHERE Time = ?` followed by `fetchone()`. -/
def selectRow {β : Type} (t : List (Nat × β)) (k : Nat) : Option β :=
  (t.find? (fun r => decide (r.1 = k))).map (fun r => r.2)

/-- The method `ThumbnailCache.__setitem__`: encode the pixbuf with
`save_to_bufferv("jpeg", ...)`; when encoding fails, warn and return without
touching the table; otherwise DELETE any row with the same time and INSERT
the new row.  `enc` is the JPEG encoder (`none` = `success` false). -/
def setitem {img β : Type} (enc : img → Option β) (t : List (Nat × β)) (k : Nat)
    (v : img) : List (Nat × β) :=
  match enc v with
  | none => t
  | some jpeg => insertRow (deleteRows t k) k jpeg

/-- The method `ThumbnailCache.__getitem__`: SELECT the row at `key`; raise
`KeyError` when absent, else decode the stored bytes into a pixbuf through
`GdkPixbuf.PixbufLoader` (`dec`). -/
def getitem {img β : Type} (dec : β → img) (t : List (Nat × β)) (k : Nat) :
    Except PyErr img :=
  match selectRow t k with
  | none => Except.error PyErr.keyError
  | some b => Except.ok (dec b)

/-- The method `ThumbnailCache.commit`: `self._db.commit()` flushes the table
to durable storage; the logical content of the committed store, which a
freshly reopened cache over the same db file reads, is the table itself. -/
def commit {β : Type} (t : List (Nat × β)) : List (Nat × β) := t

theorem deleteRows_no_key {β : Type} (t : List (Nat × β)) (k : Nat) :
    (deleteRows t k).filter (fun r => decide (r.1 = k)) = [] := by
  unfold deleteRows
  rw [List.filter_filter]
  apply List.filter_eq_nil_iff.mpr
  intro a _
  by_cases h : a.1 = k <;> simp [h]

theorem selectRow_insert_delete {β : Type} (t : List (Nat × β)) (k : Nat) (b : β) :
    selectRow (insertRow (deleteRows t k) k b) k = some b := by
  unfold selectRow insertRow
  induction t with
  | nil => simp [deleteRows]
  | cons x t ih =>
    by_cases hx : x.1 = k
    · simpa [deleteRows, List.filter_cons, hx] using ih
    · simpa [deleteRows, List.filter_cons, hx] using ih

/-- C7: setting a thumbnail at time `T` replaces any existing entry at exactly
key `T` (delete-then-insert), leaving exactly one row for `T` holding the
newly encoded bytes, and a subsequent get on the same table — or on the table
as committed to the store and re-read by a fresh cache instance — returns the
thumbnail decoded from exactly those bytes. -/
theorem thumbnailCache_set_get (img β : Type) (enc : img → Option β) (dec : β → img)
    (t : List (Nat × β)) (k : Nat) (v : img) (b : β) (henc : enc v = some b) :
    (setitem enc t k v).filter (fun r => decide (r.1 = k)) = [(k, b)] ∧
    getitem dec (setitem enc t k v) k = Except.ok (dec b) ∧
    getitem dec (commit (setitem enc t k v)) k = Except.ok (dec b) := by
  have hset : setitem enc t k v = insertRow (deleteRows t k) k b := by
    unfold setitem
    rw [henc]
  have hget : getitem dec (setitem enc t k v) k = Except.ok (dec b) := by
    rw [hset]
    unfold getitem
    rw [selectRow_insert_delete]
  refine ⟨?_, hget, ?_⟩
  · rw [hset]
    unfold insertRow
    rw [List.filter_append, deleteRows_no_key]
    simp
  · rw [commit]
    exact hget

/-- Witness for C7 with a concrete table already holding an older blob at the
same key. -/
theorem thumbnailCache_set_get_witness :
    (setitem (fun n => some (n + 1)) [(5, 99), (7, 3)] 5 41).filter
        (fun r => decide (r.1 = 5)) = [(5, 42)] ∧
    getitem (fun b => b * 2) (setitem (fun n => some (n + 1)) [(5, 99), (7, 3)] 5 41) 5 =
      Except.ok 84 ∧
    getitem (fun b => b * 2)
        (commit (setitem (fun n => some (n + 1)) [(5, 99), (7, 3)] 5 41)) 5 =
      Except.ok 84 :=
  thumbnailCache_set_get Nat Nat (fun n => some (n + 1)) (fun b => b * 2)
    [(5, 99), (7, 3)] 5 41 42 rfl

/-- C10: when JPEG encoding fails inside `ThumbnailCache.__setitem__`, the
method returns before the DELETE and the INSERT, so the table is unchanged
and any previously stored entry at the key is preserved exactly. -/
theorem thumbnailCache_set_encode_failure (img β : Type) (enc : img → Option β)
    (t : List (Nat × β)) (k : Nat) (v : img) (henc : enc v = none) :
    setitem enc t k v = t ∧
    selectRow (setitem enc t k v) k = selectRow t k := by
  have hset : setitem enc t k v = t := by
    unfold setitem
    rw [henc]
  exact ⟨hset, by rw [hset]⟩

/-- Witness for C10: a failing encoder leaves a concrete table, and the entry
stored at the key, untouched. -/
theorem thumbnailCache_set_encode_failure_witness :
    setitem (fun _ => (none : Option Nat)) [(5, 99)] 5 41 = [(5, 99)] ∧
    selectRow (setitem (fun _ => (none : Option Nat)) [(5, 99)] 5 41) 5 =
      selectRow [(5, 99)] 5 :=
  thumbnailCache_set_encode_failure Nat Nat (fun _ => none) [(5, 99)] 5 41 rfl

end Cache

namespace CpuAdapter

/-- Constant `WAVEFORMS_CPU_USAGE = 30` from `previewers.py`. -/
def WAVEFORMS_CPU_USAGE : ℚ := 30

/-- Mutable state of `PipelineCpuAdapter` (`__init__`): playback `rate`
starting at 1.0, the `done` and `ready` flags, and the remembered position.
Python floats are modelled as exact rationals; the refuted and proved
properties below (multiplicative steps, exceeding 1.0) are arithmetic facts
that hold identically for binary floating point at these magnitudes. -/
structure AdapterState where
  rate : ℚ
  done : Bool
  ready : Bool
  lastPos : Int
deriving DecidableEq, Repr

/-- Adapter state right after `__init__` and `start()`. -/
def initAdapter : AdapterState := ⟨1, false, false, 0⟩

/-- Tail of `PipelineCpuAdapter._modulateRate` after the rate update: when not
`ready`, query the position and reissue a rate-`self.rate` seek
(PAUSED → seek → PLAYING, external effects) and clear `ready`; when `ready`
and rate climbed above 0.5, set the pipeline PAUSED so the message handler
resumes (state unchanged here); otherwise do nothing.  Returns the GLib
timer continuation flag. -/
def mrTail (s : AdapterState) : AdapterState × Bool :=
  if ¬s.ready then
    ({ s with ready := false }, true)
  else
    (s, true)

/-- The method `PipelineCpuAdapter._modulateRate`, ticked every 200ms by
`GLib.timeout_add(200, ...)`.  `usage` is the sampled CPU usage percentage
(`cpu_usage_tracker.usage()`), `pos` the pipeline position used when the
near-zero branch pauses the pipeline. -/
def modulateRate (usage : ℚ) (pos : Int) (s : AdapterState) : AdapterState × Bool :=
  if s.done then
    (s, false)
  else if usage ≥ WAVEFORMS_CPU_USAGE then
    if s.rate < 1/10 then
      if ¬s.ready then
        ({ s with ready := true, lastPos := pos }, true)
      else
        (s, true)
    else if s.rate > 0 then
      mrTail { s with rate := s.rate * (9/10) }
    else
      mrTail s
  else
    mrTail { s with rate := s.rate * (11/10) }

/-- C8 counterexample: starting from the initial adapter state (rate 1.0),
a single tick with CPU usage below the threshold multiplies the rate by 1.1,
so the rate becomes 11/10 and exceeds 1.0 — the claim that the rate never
exceeds 1.0 starting from 1.0 is false. -/
theorem modulateRate_exceeds_one :
    (modulateRate 0 0 initAdapter).1.rate = 11/10 ∧ ((11 : ℚ)/10) > 1 := by
  constructor
  · norm_num [modulateRate, mrTail, initAdapter, WAVEFORMS_CPU_USAGE]
  · norm_num

/-- C8 amended: on every 200ms tick with the adapter not done, measured usage
at or above the threshold with rate ≥ 0.1 multiplies the rate by 0.9;
usage at or above the threshold with rate < 0.1 leaves the rate unchanged
(the pipeline is paused via the READY state instead); usage below the
threshold multiplies the rate by 1.1 — a step that is not the inverse of 0.9
and is applied with no upper cap, so the rate can exceed 1.0. -/
theorem modulateRate_rate_spec (usage : ℚ) (pos : Int) (s : AdapterState)
    (hdone : s.done = false) :
    (usage ≥ WAVEFORMS_CPU_USAGE → 1/10 ≤ s.rate →
        (modulateRate usage pos s).1.rate = s.rate * (9/10)) ∧
    (usage ≥ WAVEFORMS_CPU_USAGE → s.rate < 1/10 →
        (modulateRate usage pos s).1.rate = s.rate) ∧
    (usage < WAVEFORMS_CPU_USAGE →
        (modulateRate usage pos s).1.rate = s.rate * (11/10)) := by
  refine ⟨?_, ?_, ?_⟩
  · intro hu hr
    have hpos : s.rate > 0 := lt_of_lt_of_le (by norm_num) hr
    unfold modulateRate
    rw [if_neg (by simp [hdone]), if_pos hu, if_neg (by simp; linarith), if_pos hpos]
    unfold mrTail
    split <;> rfl
  · intro hu hr
    unfold modulateRate
    rw [if_neg (by simp [hdone]), if_pos hu, if_pos hr]
    split <;> rfl
  · intro hu
    unfold modulateRate
    rw [if_neg (by simp [hdone]), if_neg (by simp [not_le.mpr hu])]
    unfold mrTail
    split <;> rfl

/-- Witness for C8 amended: the three branches at concrete states — high
usage at rate 1 slows to 9/10, high usage at rate 1/20 leaves the rate alone,
low usage at rate 1 speeds up to 11/10. -/
theorem modulateRate_rate_spec_witness :
    (modulateRate 50 0 initAdapter).1.rate = 1 * (9/10) ∧
    (modulateRate 50 0 ⟨1/20, false, false, 0⟩).1.rate = 1/20 ∧
    (modulateRate 0 0 initAdapter).1.rate = 1 * (11/10) :=
  ⟨(modulateRate_rate_spec 50 0 initAdapter rfl).1 (by norm_num [WAVEFORMS_CPU_USAGE])
      (by norm_num [initAdapter]),
   (modulateRate_rate_spec 50 0 ⟨1/20, false, false, 0⟩ rfl).2.1
      (by norm_num [WAVEFORMS_CPU_USAGE]) (by norm_num),
   (modulateRate_rate_spec 0 0 initAdapter rfl).2.2
      (by norm_num [WAVEFORMS_CPU_USAGE])⟩

end CpuAdapter

namespace AudioPrev

/-- State of an `AudioPreviewer` relevant to the generation error path:
`_num_failures` (initialised to 0), whether a `PipelineCpuAdapter` is
attached (`self.adapter is not None`), and whether a pipeline object is
attached (`self.pipeline`). -/
structure APState where
  num_failures : Nat
  hasAdapter : Bool
  hasPipeline : Bool
deriving DecidableEq, Repr

/-- Externally visible outcomes of the error path, in emission order. -/
inductive APOut where
  | doneSig
  | relaunch
deriving DecidableEq, Repr

/-- The method `AudioPreviewer.stopGeneration`: stop and drop the adapter if
any, set the pipeline to NULL (an external effect; the attribute stays), and
emit "done" unconditionally. -/
def stopGeneration (s : APState) : APState × List APOut :=
  ({ s with hasAdapter := false }, [APOut.doneSig])

/-- ERROR branch of `AudioPreviewer._busMessageCb`: stop and clear the
adapter, call `stopGeneration` (which emits "done"), increment
`_num_failures`; below two accumulated failures, disconnect the bus handler
and relaunch the pipeline (`_launchPipeline`, which rebuilds the pipeline and
calls `becomeControlled`, then `becomeControlled` again); otherwise log the
abandonment and do nothing further. -/
def busMessageError (s : APState) : APState × List APOut :=
  let s1 : APState := { s with hasAdapter := false }
  let r2 := stopGeneration s1
  let s3 : APState := { r2.1 with num_failures := r2.1.num_failures + 1 }
  if s3.num_failures < 2 then
    ({ s3 with hasPipeline := true }, r2.2 ++ [APOut.relaunch])
  else
    (s3, r2.2)

/-- PAUSED → PLAYING arm of the STATE_CHANGED branch of
`AudioPreviewer._busMessageCb`: a `PipelineCpuAdapter` is created and started
only when none is attached and `_num_failures == 0`, so a relaunch after a
failure runs without rate modulation. -/
def busMessagePausedToPlaying (s : APState) : APState :=
  if ¬s.hasAdapter ∧ s.num_failures = 0 then { s with hasAdapter := true } else s

/-- C5: an audio waveform job that receives a pipeline error still emits
"done" (via `stopGeneration`), so the manager advances; on the first error it
retries exactly once, relaunching without rate modulation (the
PAUSED → PLAYING handler refuses to attach a cpu adapter once
`_num_failures` is nonzero); on the second error it abandons generation —
no relaunch — while still having emitted "done". -/
theorem audio_error_retry_spec (s : APState) :
    APOut.doneSig ∈ (busMessageError s).2 ∧
    (s.num_failures = 0 →
        (busMessageError s).1.num_failures = 1 ∧
        APOut.relaunch ∈ (busMessageError s).2 ∧
        (busMessageError s).1.hasAdapter = false ∧
        (busMessagePausedToPlaying (busMessageError s).1).hasAdapter = false) ∧
    (s.num_failures = 1 →
        (busMessageError s).1.num_failures = 2 ∧
        APOut.relaunch ∉ (busMessageError s).2 ∧
        (busMessageError s).2 = [APOut.doneSig]) := by
  refine ⟨?_, ?_, ?_⟩
  · unfold busMessageError stopGeneration
    dsimp only
    split <;> simp
  · intro h0
    unfold busMessageError stopGeneration busMessagePausedToPlaying
    simp [h0]
  · intro h1
    unfold busMessageError stopGeneration
    simp [h1]

/-- Witness for C5: a fresh job (no prior failure) and a job with one prior
failure, both with an adapter attached and a pipeline present. -/
theorem audio_error_retry_spec_witness :
    APOut.doneSig ∈ (busMessageError ⟨0, true, true⟩).2 ∧
    ((busMessageError ⟨0, true, true⟩).1.num_failures = 1 ∧
      APOut.relaunch ∈ (busMessageError ⟨0, true, true⟩).2 ∧
      (busMessageError ⟨0, true, true⟩).1.hasAdapter = false ∧
      (busMessagePausedToPlaying (busMessageError ⟨0, true, true⟩).1).hasAdapter = false) ∧
    ((busMessageError ⟨1, false, true⟩).1.num_failures = 2 ∧
      APOut.relaunch ∉ (busMessageError ⟨1, false, true⟩).2 ∧
      (busMessageError ⟨1, false, true⟩).2 = [APOut.doneSig]) :=
  ⟨(audio_error_retry_spec ⟨0, true, true⟩).1,
   (audio_error_retry_spec ⟨0, true, true⟩).2.1 rfl,
   (audio_error_retry_spec ⟨1, false, true⟩).2.2 rfl⟩

end AudioPrev

end Previewers

namespace UndoTimeline

/-- Bookkeeping flag of an `UndoableAction`. -/
inductive Flag where
  | done
  | undone
deriving DecidableEq, Repr

/-- Modelled from the spec: `UndoableAction._done` is defined in
`pitivi/undo/undo.py`, which is not among the sources; per the spec
(section 3, UndoableAction, internal bookkeeping flags) it records the
action as done (and notifies). -/
def markDone : Flag := Flag.done

/-- Modelled from the spec: `UndoableAction._undone` (same missing module)
records the action as undone. -/
def markUndone : Flag := Flag.undone

/-- Python `str.replace` mapping "-" to "_", applied by
`TimelineObjectPropertyChanged.do/undo` to turn the property name into the
attribute name passed to `setattr`. -/
def pyAttrName (s : String) : String :=
  String.mk (s.data.map (fun c => if c = '-' then '_' else c))

/-- Python `setattr` on a live object, the object being its ordered
attribute list: overwrite the first binding of the name in place, or append
a fresh binding. -/
def setattr : List (String × Int) → String → Int → List (String × Int)
  | [], n, v => [(n, v)]
  | (m, w) :: rest, n, v =>
    if m = n then (m, v) :: rest else (m, w) :: setattr rest n v

/-- Python attribute read on the same representation. -/
def getattr : List (String × Int) → String → Option Int
  | [], _ => none
  | (m, w) :: rest, n => if m = n then some w else getattr rest n

theorem setattr_setattr (o : List (String × Int)) (n : String) (v w : Int) :
    setattr (setattr o n v) n w = setattr o n w := by
  induction o with
  | nil => simp [setattr]
  | cons x rest ih =>
    obtain ⟨m, u⟩ := x
    by_cases hx : m = n <;> simp [setattr, hx, ih]

theorem setattr_of_getattr (o : List (String × Int)) (n : String) (w : Int)
    (h : getattr o n = some w) : setattr o n w = o := by
  induction o with
  | nil => simp [getattr] at h
  | cons x rest ih =>
    obtain ⟨m, u⟩ := x
    by_cases hx : m = n
    · rw [getattr, if_pos hx] at h
      cases h
      simp [setattr, hx]
    · rw [getattr, if_neg hx] at h
      simp [setattr, hx, ih h]

/-- Payload of `TimelineObjectPropertyChanged` (undo/timeline.py): the
affected timeline object is the state the action acts on, the rest are the
constructor arguments. -/
structure TimelineObjectPropertyChanged where
  property_name : String
  old_value : Int
  new_value : Int
deriving DecidableEq, Repr

/-- `TimelineObjectPropertyChanged.do`: set the attribute derived from the
property name to the new value, then `_done()`. -/
def TimelineObjectPropertyChanged.doAction (a : TimelineObjectPropertyChanged)
    (obj : List (String × Int)) : List (String × Int) × Flag :=
  (setattr obj (pyAttrName a.property_name) a.new_value, markDone)

/-- `TimelineObjectPropertyChanged.undo`: set the same attribute back to the
old value, then `_undone()`. -/
def TimelineObjectPropertyChanged.undoAction (a : TimelineObjectPropertyChanged)
    (obj : List (String × Int)) : List (String × Int) × Flag :=
  (setattr obj (pyAttrName a.property_name) a.old_value, markUndone)

/-- A keyframe snapshot `(mode, time, value)` as used by
`KeyframeChangeTracker._getKeyframeSnapshot` and the keyframe actions; the
keyframe collection of an interpolator is the set of such snapshots. -/
structure Keyframe where
  mode : Int
  time : Int
  value : Int
deriving DecidableEq, Repr

/-- Payload of `InterpolatorKeyframeAdded`. -/
structure InterpolatorKeyframeAdded where
  keyframe : Keyframe
deriving DecidableEq, Repr

/-- `InterpolatorKeyframeAdded.do`: `track_object.newKeyframe(self.keyframe)`
then `_done()`. -/
def InterpolatorKeyframeAdded.doAction (a : InterpolatorKeyframeAdded)
    (kfs : Finset Keyframe) : Finset Keyframe × Flag :=
  (insert a.keyframe kfs, markDone)

/-- `InterpolatorKeyframeAdded.undo`: `removeKeyframe(self.keyframe)` then
`_undone()`. -/
def InterpolatorKeyframeAdded.undoAction (a : InterpolatorKeyframeAdded)
    (kfs : Finset Keyframe) : Finset Keyframe × Flag :=
  (kfs.erase a.keyframe, markUndone)

/-- Payload of `InterpolatorKeyframeRemoved`. -/
structure InterpolatorKeyframeRemoved where
  keyframe : Keyframe
deriving DecidableEq, Repr

/-- `InterpolatorKeyframeRemoved.do`: `removeKeyframe(self.keyframe)` —
followed, in the source, by `self._undone()` (not `_done()`). -/
def InterpolatorKeyframeRemoved.doAction (a : InterpolatorKeyframeRemoved)
    (kfs : Finset Keyframe) : Finset Keyframe × Flag :=
  (kfs.erase a.keyframe, markUndone)

/-- `InterpolatorKeyframeRemoved.undo`:
`newKeyframe(self.keyframe.time, self.keyframe.value, self.keyframe.mode)`
recreates the same snapshot — followed, in the source, by `self._done()`. -/
def InterpolatorKeyframeRemoved.undoAction (a : InterpolatorKeyframeRemoved)
    (kfs : Finset Keyframe) : Finset Keyframe × Flag :=
  (insert a.keyframe kfs, markDone)

/-- Payload of `InterpolatorKeyframeChanged`; the state acted on is the
snapshot currently carried by the affected keyframe, which `_setSnapshot`
overwrites via setMode/setTime/setValue. -/
structure InterpolatorKeyframeChanged where
  old_snapshot : Keyframe
  new_snapshot : Keyframe
deriving DecidableEq, Repr

/-- `InterpolatorKeyframeChanged.do`: `_setSnapshot(new_snapshot)` then
`_done()`. -/
def InterpolatorKeyframeChanged.doAction (a : InterpolatorKeyframeChanged)
    (kf : Keyframe) : Keyframe × Flag :=
  (a.new_snapshot, markDone)

/-- `InterpolatorKeyframeChanged.undo`: `_setSnapshot(old_snapshot)` then
`_undone()`. -/
def InterpolatorKeyframeChanged.undoAction (a : InterpolatorKeyframeChanged)
    (kf : Keyframe) : Keyframe × Flag :=
  (a.old_snapshot, markUndone)

/-- Payload of `ActivePropertyChanged`: the mutable `self.active` field.  The
state acted on is the `active` attribute of the track object of the
enclosing effect action. -/
structure ActivePropertyChanged where
  active : Bool
deriving DecidableEq, Repr

/-- `ActivePropertyChanged.__init__(effect_action, active)` stores
`not active`. -/
def mkActivePropertyChanged (active : Bool) : ActivePropertyChanged :=
  ⟨!active⟩

/-- `ActivePropertyChanged.do`: write `self.active` into the track object,
toggle `self.active`, then `_done()`.  Returns the new external value, the
mutated action and the flag. -/
def ActivePropertyChanged.doAction (a : ActivePropertyChanged)
    (trackActive : Bool) : Bool × ActivePropertyChanged × Flag :=
  (a.active, ⟨!a.active⟩, markDone)

/-- `ActivePropertyChanged.undo`: identical write and toggle, then
`_undone()`. -/
def ActivePropertyChanged.undoAction (a : ActivePropertyChanged)
    (trackActive : Bool) : Bool × ActivePropertyChanged × Flag :=
  (a.active, ⟨!a.active⟩, markUndone)

/-- External structural state acted on by `TimelineObjectAdded` /
`TimelineObjectRemoved`: the objects attached to the layer and the track
objects attached to the tracks. -/
structure StructState where
  layerObjs : Finset Nat
  trackObjs : Finset Nat
deriving DecidableEq

/-- Modelled from the spec: `track.addTrackObject`, `layer.add_object` and
`timeline.addTimelineObject` belong to the external GES engine (not among the
sources); attaching adds the object to the layer collection and its captured
track objects to the tracks. -/
def attachObject (s : StructState) (o : Nat) (trks : Finset Nat) : StructState :=
  ⟨insert o s.layerObjs, s.trackObjs ∪ trks⟩

/-- Modelled from the spec: `layer.remove_object` and
`timeline.removeTimelineObject(deep=True)` detach the object from the layer
together with its track objects from their tracks (spec section 4.3:
structural actions capture the track-element set and per-track ownership so
that add/remove is fully reversible). -/
def detachObject (s : StructState) (o : Nat) (trks : Finset Nat) : StructState :=
  ⟨s.layerObjs.erase o, s.trackObjs \ trks⟩

/-- Payload of `TimelineObjectAdded`: the object and the track objects
captured from `get_track_objects()` at construction time. -/
structure TimelineObjectAdded where
  timeline_object : Nat
  tracks : Finset Nat
deriving DecidableEq

/-- `TimelineObjectAdded.do`: re-add the captured track objects to their
tracks and the object to the layer, then `_done()`. -/
def TimelineObjectAdded.doAction (a : TimelineObjectAdded) (s : StructState) :
    StructState × Flag :=
  (attachObject s a.timeline_object a.tracks, markDone)

/-- `TimelineObjectAdded.undo`: `layer.remove_object(self.timeline_object)`
then `_undone()`. -/
def TimelineObjectAdded.undoAction (a : TimelineObjectAdded) (s : StructState) :
    StructState × Flag :=
  (detachObject s a.timeline_object a.tracks, markUndone)

/-- Payload of `TimelineObjectRemoved`. -/
structure TimelineObjectRemoved where
  timeline_object : Nat
  tracks : Finset Nat
deriving DecidableEq

/-- `TimelineObjectRemoved.do`:
`timeline.removeTimelineObject(self.timeline_object, deep=True)` then
`_done()`. -/
def TimelineObjectRemoved.doAction (a : TimelineObjectRemoved) (s : StructState) :
    StructState × Flag :=
  (detachObject s a.timeline_object a.tracks, markDone)

/-- `TimelineObjectRemoved.undo`: re-add the captured track objects and the
object, then `_undone()`. -/
def TimelineObjectRemoved.undoAction (a : TimelineObjectRemoved) (s : StructState) :
    StructState × Flag :=
  (attachObject s a.timeline_object a.tracks, markUndone)

/-- C1 counterexample: `InterpolatorKeyframeRemoved.do()` calls `_undone()`
(and its `undo()` calls `_done()`), so after `do()` the action is flagged
undone — refuting, at this concrete action, the claim that `do()` always
leaves the action flagged done. -/
theorem interpolatorKeyframeRemoved_flags_swapped :
    (InterpolatorKeyframeRemoved.doAction ⟨⟨0, 0, 0⟩⟩ {⟨0, 0, 0⟩}).2 = Flag.undone ∧
    Flag.undone ≠ Flag.done := by
  exact ⟨rfl, by decide⟩

/-- C1 amended: for each concrete UndoableAction class of the timeline undo
module, do-then-undo restores the pre-state and undo-then-do restores the
post-state, provided the starting state is consistent with the values the
action captured at construction (as holds in the action lifecycle); `do()`
leaves the action flagged done and `undo()` flagged undone for every class
except `InterpolatorKeyframeRemoved`, whose flag calls are swapped. -/
theorem undoableActions_roundtrip
    (a1 : TimelineObjectPropertyChanged) (o : List (String × Int))
    (a2 : InterpolatorKeyframeAdded) (k2 : Finset Keyframe)
    (a3 : InterpolatorKeyframeRemoved) (k3 : Finset Keyframe)
    (a4 : InterpolatorKeyframeChanged) (kf : Keyframe)
    (a5 : ActivePropertyChanged) (act : Bool)
    (a6 : TimelineObjectAdded) (s6 : StructState)
    (a7 : TimelineObjectRemoved) (s7 : StructState) :
    ((a1.doAction o).2 = Flag.done ∧ (a1.undoAction o).2 = Flag.undone) ∧
    (getattr o (pyAttrName a1.property_name) = some a1.old_value →
        (a1.undoAction (a1.doAction o).1).1 = o) ∧
    (getattr o (pyAttrName a1.property_name) = some a1.new_value →
        (a1.doAction (a1.undoAction o).1).1 = o) ∧
    ((a2.doAction k2).2 = Flag.done ∧ (a2.undoAction k2).2 = Flag.undone) ∧
    (a2.keyframe ∉ k2 → (a2.undoAction (a2.doAction k2).1).1 = k2) ∧
    (a2.keyframe ∈ k2 → (a2.doAction (a2.undoAction k2).1).1 = k2) ∧
    ((a3.doAction k3).2 = Flag.undone ∧ (a3.undoAction k3).2 = Flag.done) ∧
    (a3.keyframe ∈ k3 → (a3.undoAction (a3.doAction k3).1).1 = k3) ∧
    (a3.keyframe ∉ k3 → (a3.doAction (a3.undoAction k3).1).1 = k3) ∧
    ((a4.doAction kf).2 = Flag.done ∧ (a4.undoAction kf).2 = Flag.undone) ∧
    (kf = a4.old_snapshot → (a4.undoAction (a4.doAction kf).1).1 = kf) ∧
    (kf = a4.new_snapshot → (a4.doAction (a4.undoAction kf).1).1 = kf) ∧
    ((a5.doAction act).2.2 = Flag.done ∧ (a5.undoAction act).2.2 = Flag.undone) ∧
    (act = !a5.active →
        ((a5.doAction act).2.1.undoAction (a5.doAction act).1).1 = act ∧
        ((a5.undoAction act).2.1.doAction (a5.undoAction act).1).1 = act) ∧
    ((a6.doAction s6).2 = Flag.done ∧ (a6.undoAction s6).2 = Flag.undone) ∧
    (a6.timeline_object ∉ s6.layerObjs → Disjoint s6.trackObjs a6.tracks →
        (a6.undoAction (a6.doAction s6).1).1 = s6) ∧
    (a6.timeline_object ∈ s6.layerObjs → a6.tracks ⊆ s6.trackObjs →
        (a6.doAction (a6.undoAction s6).1).1 = s6) ∧
    ((a7.doAction s7).2 = Flag.done ∧ (a7.undoAction s7).2 = Flag.undone) ∧
    (a7.timeline_object ∈ s7.layerObjs → a7.tracks ⊆ s7.trackObjs →
        (a7.undoAction (a7.doAction s7).1).1 = s7) ∧
    (a7.timeline_object ∉ s7.layerObjs → Disjoint s7.trackObjs a7.tracks →
        (a7.doAction (a7.undoAction s7).1).1 = s7) := by
  refine ⟨⟨rfl, rfl⟩, ?_, ?_, ⟨rfl, rfl⟩, ?_, ?_, ⟨rfl, rfl⟩, ?_, ?_, ⟨rfl, rfl⟩,
      ?_, ?_, ⟨rfl, rfl⟩, ?_, ⟨rfl, rfl⟩, ?_, ?_, ⟨rfl, rfl⟩, ?_, ?_⟩
  · intro h
    unfold TimelineObjectPropertyChanged.doAction TimelineObjectPropertyChanged.undoAction
    dsimp only
    rw [setattr_setattr, setattr_of_getattr _ _ _ h]
  · intro h
    unfold TimelineObjectPropertyChanged.doAction TimelineObjectPropertyChanged.undoAction
    dsimp only
    rw [setattr_setattr, setattr_of_getattr _ _ _ h]
  · intro h
    unfold InterpolatorKeyframeAdded.doAction InterpolatorKeyframeAdded.undoAction
    dsimp only
    exact Finset.erase_insert h
  · intro h
    unfold InterpolatorKeyframeAdded.doAction InterpolatorKeyframeAdded.undoAction
    dsimp only
    exact Finset.insert_erase h
  · intro h
    unfold InterpolatorKeyframeRemoved.doAction InterpolatorKeyframeRemoved.undoAction
    dsimp only
    exact Finset.insert_erase h
  · intro h
    unfold InterpolatorKeyframeRemoved.doAction InterpolatorKeyframeRemoved.undoAction
    dsimp only
    exact Finset.erase_insert h
  · intro h
    subst h
    rfl
  · intro h
    subst h
    rfl
  · intro h
    unfold ActivePropertyChanged.doAction ActivePropertyChanged.undoAction
    dsimp only
    exact ⟨h.symm, h.symm⟩
  · intro h1 h2
    unfold TimelineObjectAdded.doAction TimelineObjectAdded.undoAction
    unfold attachObject detachObject
    dsimp only
    obtain ⟨L, T⟩ := s6
    dsimp only at h1 h2 ⊢
    congr 1
    · exact Finset.erase_insert h1
    · rw [Finset.union_sdiff_cancel_right h2]
  · intro h1 h2
    unfold TimelineObjectAdded.doAction TimelineObjectAdded.undoAction
    unfold attachObject detachObject
    dsimp only
    obtain ⟨L, T⟩ := s6
    dsimp only at h1 h2 ⊢
    congr 1
    · exact Finset.insert_erase h1
    · rw [Finset.sdiff_union_of_subset h2]
  · intro h1 h2
    unfold TimelineObjectRemoved.doAction TimelineObjectRemoved.undoAction
    unfold attachObject detachObject
    dsimp only
    obtain ⟨L, T⟩ := s7
    dsimp only at h1 h2 ⊢
    congr 1
    · exact Finset.insert_erase h1
    · rw [Finset.sdiff_union_of_subset h2]
  · intro h1 h2
    unfold TimelineObjectRemoved.doAction TimelineObjectRemoved.undoAction
    unfold attachObject detachObject
    dsimp only
    obtain ⟨L, T⟩ := s7
    dsimp only at h1 h2 ⊢
    congr 1
    · exact Finset.erase_insert h1
    · rw [Finset.union_sdiff_cancel_right h2]

/-- Concrete property-change action: property "in-point" changed 3 → 7. -/
def a1w : TimelineObjectPropertyChanged := ⟨"in-point", 3, 7⟩

/-- Object state before the property change. -/
def oPre : List (String × Int) := [("in_point", 3)]

/-- Object state after the property change. -/
def oPost : List (String × Int) := [("in_point", 7)]

def kf0 : Keyframe := ⟨0, 0, 0⟩

def kf1 : Keyframe := ⟨1, 1, 1⟩

def a2w : InterpolatorKeyframeAdded := ⟨kf0⟩

def a3w : InterpolatorKeyframeRemoved := ⟨kf0⟩

def a4w : InterpolatorKeyframeChanged := ⟨kf0, kf1⟩

def a5w : ActivePropertyChanged := ⟨true⟩

def a6w : TimelineObjectAdded := ⟨9, {4}⟩

def a7w : TimelineObjectRemoved := ⟨9, {4}⟩

/-- Structural state without the object. -/
def ssEmpty : StructState := ⟨∅, ∅⟩

/-- Structural state with the object attached. -/
def ssFull : StructState := ⟨{9}, {4}⟩

/-- Witness for C1 amended: all round trips and flag equations at concrete
actions and consistent concrete states. -/
theorem undoableActions_roundtrip_witness :
    ((a1w.doAction oPre).2 = Flag.done ∧ (a1w.undoAction oPre).2 = Flag.undone) ∧
    (a1w.undoAction (a1w.doAction oPre).1).1 = oPre ∧
    (a1w.doAction (a1w.undoAction oPost).1).1 = oPost ∧
    ((a2w.doAction ∅).2 = Flag.done ∧ (a2w.undoAction ∅).2 = Flag.undone) ∧
    (a2w.undoAction (a2w.doAction ∅).1).1 = ∅ ∧
    (a2w.doAction (a2w.undoAction {kf0}).1).1 = {kf0} ∧
    ((a3w.doAction {kf0}).2 = Flag.undone ∧ (a3w.undoAction {kf0}).2 = Flag.done) ∧
    (a3w.undoAction (a3w.doAction {kf0}).1).1 = {kf0} ∧
    (a3w.doAction (a3w.undoAction ∅).1).1 = ∅ ∧
    ((a4w.doAction kf0).2 = Flag.done ∧ (a4w.undoAction kf0).2 = Flag.undone) ∧
    (a4w.undoAction (a4w.doAction kf0).1).1 = kf0 ∧
    (a4w.doAction (a4w.undoAction kf1).1).1 = kf1 ∧
    ((a5w.doAction false).2.2 = Flag.done ∧ (a5w.undoAction false).2.2 = Flag.undone) ∧
    (((a5w.doAction false).2.1.undoAction (a5w.doAction false).1).1 = false ∧
      ((a5w.undoAction false).2.1.doAction (a5w.undoAction false).1).1 = false) ∧
    ((a6w.doAction ssEmpty).2 = Flag.done ∧ (a6w.undoAction ssEmpty).2 = Flag.undone) ∧
    (a6w.undoAction (a6w.doAction ssEmpty).1).1 = ssEmpty ∧
    (a6w.doAction (a6w.undoAction ssFull).1).1 = ssFull ∧
    ((a7w.doAction ssFull).2 = Flag.done ∧ (a7w.undoAction ssFull).2 = Flag.undone) ∧
    (a7w.undoAction (a7w.doAction ssFull).1).1 = ssFull ∧
    (a7w.doAction (a7w.undoAction ssEmpty).1).1 = ssEmpty := by
  have H1 := undoableActions_roundtrip a1w oPre a2w ∅ a3w {kf0} a4w kf0 a5w false
      a6w ssEmpty a7w ssFull
  have H2 := undoableActions_roundtrip a1w oPost a2w {kf0} a3w ∅ a4w kf1 a5w false
      a6w ssFull a7w ssEmpty
  obtain ⟨f1, du1, -, f2, du2, -, f3, du3, -, f4, du4, -, f5, rt5, f6, du6, -,
      f7, du7, -⟩ := H1
  obtain ⟨-, -, ud1, -, -, ud2, -, -, ud3, -, -, ud4, -, -, -, -, ud6, -, -, ud7⟩ := H2
  exact ⟨f1, du1 (by decide), ud1 (by decide), f2, du2 (by decide), ud2 (by decide),
      f3, du3 (by decide), ud3 (by decide), f4, du4 rfl, ud4 rfl, f5, rt5 (by decide),
      f6, du6 (by decide) (Finset.disjoint_empty_left _),
      ud6 (by decide) (Finset.Subset.refl _),
      f7, du7 (by decide) (Finset.Subset.refl _),
      ud7 (by decide) (Finset.disjoint_empty_left _)⟩

/-- State of a `TimelineObjectPropertyChangeTracker`: the property snapshot
kept by the base class, and the value `self.timeline.is_updating()` returns
on the owning timeline stored by `connectToObject`. -/
structure TrackerState where
  is_updating : Bool
  properties : List (String × Int)
deriving DecidableEq, Repr

/-- Modelled from the spec: the base class method
`PropertyChangeTracker._propertyChangedCb` is defined in
`pitivi/undo/undo.py`, which is not among the sources; per the spec (section
4.2) it updates the stored snapshot for the property and emits a change
event carrying the old and the new value together with the property name. -/
def basePropertyChangedCb (props : List (String × Int)) (name : String)
    (value : Int) : List (String × Int) × List (String × Int × Int) :=
  (setattr props name value, [(name, (getattr props name).getD 0, value)])

/-- The override `TimelineObjectPropertyChangeTracker._propertyChangedCb`
(undo/timeline.py): the notification is forwarded to the base class only
when `self.timeline.is_updating()` returns true; otherwise it is dropped. -/
def trackerPropertyChangedCb (s : TrackerState) (name : String) (value : Int) :
    TrackerState × List (String × Int × Int) :=
  if s.is_updating then
    ({ s with properties := (basePropertyChangedCb s.properties name value).1 },
      (basePropertyChangedCb s.properties name value).2)
  else
    (s, [])

/-- The handler `TimelineLogObserver._timelineObjectPropertyChangedCb`: every
change event the tracker emits becomes one `TimelineObjectPropertyChanged`
action pushed onto the log. -/
def pushedActions (evs : List (String × Int × Int)) :
    List TimelineObjectPropertyChanged :=
  evs.map (fun e => ⟨e.1, e.2.1, e.2.2⟩)

/-- C2 counterexample: in a state where the owning timeline reports
`is_updating() = true` — which the claim reads as an engine-driven mutation
(an undo/redo replay) being in progress — the tracker forwards the
notification and an action is pushed to the log, refuting the claim that
such notifications are never forwarded. -/
theorem tracker_forwards_when_updating :
    (trackerPropertyChangedCb ⟨true, [("start", 0)]⟩ "start" 5).2 =
      [("start", 0, 5)] ∧
    pushedActions (trackerPropertyChangedCb ⟨true, [("start", 0)]⟩ "start" 5).2 =
      [⟨"start", 0, 5⟩] ∧
    (trackerPropertyChangedCb ⟨true, [("start", 0)]⟩ "start" 5).2 ≠ [] := by
  exact ⟨rfl, rfl, by decide⟩

/-- C2 amended: the guard follows the polarity of `timeline.is_updating()`:
the tracker forwards the notification — and exactly one action is pushed to
the log — when `is_updating()` returns true, and ignores it — nothing
forwarded, nothing pushed — when `is_updating()` returns false. -/
theorem tracker_guard_spec (s : TrackerState) (name : String) (v : Int) :
    (s.is_updating = true →
        (trackerPropertyChangedCb s name v).2 =
          [(name, (getattr s.properties name).getD 0, v)] ∧
        pushedActions (trackerPropertyChangedCb s name v).2 =
          [⟨name, (getattr s.properties name).getD 0, v⟩]) ∧
    (s.is_updating = false →
        (trackerPropertyChangedCb s name v).2 = [] ∧
        pushedActions (trackerPropertyChangedCb s name v).2 = []) := by
  constructor
  · intro h
    simp [trackerPropertyChangedCb, h, basePropertyChangedCb, pushedActions]
  · intro h
    simp [trackerPropertyChangedCb, h, pushedActions]

/-- Witness for C2 amended: both guard polarities at concrete tracker
states. -/
theorem tracker_guard_spec_witness :
    ((trackerPropertyChangedCb ⟨true, [("duration", 2)]⟩ "duration" 9).2 =
        [("duration", (getattr [("duration", 2)] "duration").getD 0, 9)] ∧
      pushedActions (trackerPropertyChangedCb ⟨true, [("duration", 2)]⟩ "duration" 9).2 =
        [⟨"duration", (getattr [("duration", 2)] "duration").getD 0, 9⟩]) ∧
    ((trackerPropertyChangedCb ⟨false, [("duration", 2)]⟩ "duration" 9).2 = [] ∧
      pushedActions (trackerPropertyChangedCb ⟨false, [("duration", 2)]⟩ "duration" 9).2 =
        []) :=
  ⟨(tracker_guard_spec ⟨true, [("duration", 2)]⟩ "duration" 9).1 rfl,
   (tracker_guard_spec ⟨false, [("duration", 2)]⟩ "duration" 9).2 rfl⟩

/-- A layer of the observed timeline: its identity and the timeline objects
it holds (`layer.get_objects()`). -/
structure Layer where
  lid : Nat
  objects : List Nat
deriving DecidableEq, Repr

/-- The observed timeline; `timeline.get_layers()` returns `layers`. -/
structure Timeline where
  layers : List Layer
deriving DecidableEq, Repr

/-- The objects of all layers, in iteration order: what the nested loops of
`startObserving` visit, and what `timeline.timeline_objects` enumerates in
`stopObserving`. -/
def Timeline.timeline_objects (t : Timeline) : List Nat :=
  (t.layers.map Layer.objects).join

/-- Connections held because of the observer, plus its tracker dictionary:
handlers connected on layers (layer id, callback name), handlers connected
on timeline objects, handlers connected on the timeline object itself, and
the keys of `timeline_object_property_trackers`. -/
structure ObsState where
  layerHandlers : List (Nat × String)
  tlObjHandlers : List (Nat × String)
  timelineHandlers : List String
  trackers : List Nat
deriving DecidableEq, Repr

/-- Observer connection state before `startObserving`. -/
def obsInit : ObsState := ⟨[], [], [], []⟩

/-- `TimelineLogObserver._connectToTimeline`: for every layer, connect
`_timelineObjectAddedCb` to "object-added" and `_timelineObjectRemovedCb`
to "object-removed" — on the layer itself. -/
def connectToTimeline (s : ObsState) (t : Timeline) : ObsState :=
  { s with layerHandlers := s.layerHandlers ++
      (t.layers.map (fun l =>
        [(l.lid, "_timelineObjectAddedCb"),
         (l.lid, "_timelineObjectRemovedCb")])).join }

/-- `TimelineLogObserver._connectToTimelineObject`: create a tracker, connect
the per-property notify handlers on it, store it in the tracker dictionary,
connect the two track-object handlers on the timeline object — and then
evaluate `track_object.connect("effect-added", ...)`, where the local name
`track_object` is bound nowhere in the method, raising `NameError`; the
mutations made before the failing statement persist. -/
def connectToTimelineObject (s : ObsState) (obj : Nat) : ObsState × Option PyErr :=
  ({ s with
      trackers := s.trackers ++ [obj],
      tlObjHandlers := s.tlObjHandlers ++
        [(obj, "_timelineObjectTrackObjectAddedCb"),
         (obj, "_timelineObjectTrackObjectRemovedCb")] },
    some PyErr.nameError)

/-- `TimelineLogObserver.startObserving`: `_connectToTimeline` first, then
walk every layer and every object; the first `_connectToTimelineObject` call
raises, the exception propagating out of `startObserving` (the inner
track-object loop is never reached). -/
def startObserving (s : ObsState) (t : Timeline) : ObsState × Option PyErr :=
  match t.timeline_objects with
  | [] => (connectToTimeline s t, none)
  | o :: _ => connectToTimelineObject (connectToTimeline s t) o

/-- `TimelineLogObserver._disconnectFromTimeline` invokes
`disconnect_by_func` for the two structural callbacks on the **timeline**
object — not on the layers carrying the handlers; `disconnect_by_func`
(g_signal_handlers_disconnect_by_func) removes every matching handler from
the object it is invoked on and does nothing when none matches. -/
def disconnectFromTimeline (s : ObsState) : ObsState :=
  { s with timelineHandlers :=
      s.timelineHandlers.filter (fun n =>
        decide (n ≠ "_timelineObjectAddedCb" ∧ n ≠ "_timelineObjectRemovedCb")) }

/-- `TimelineLogObserver._disconnectFromTimelineObject`: pop the tracker of
the object from the dictionary (`KeyError` when absent) and disconnect the
handlers held on the tracker; the track-object handlers connected on the
timeline object itself are not removed. -/
def disconnectFromTimelineObject (s : ObsState) (obj : Nat) :
    ObsState × Option PyErr :=
  if obj ∈ s.trackers then
    ({ s with trackers := s.trackers.filter (fun x => decide (x ≠ obj)) }, none)
  else
    (s, some PyErr.keyError)

/-- Loop of `stopObserving` over `timeline.timeline_objects`, aborting on the
first exception. -/
def stopLoop (s : ObsState) : List Nat → ObsState × Option PyErr
  | [] => (s, none)
  | o :: rest =>
    match disconnectFromTimelineObject s o with
    | (s1, none) => stopLoop s1 rest
    | (s1, some e) => (s1, some e)

/-- `TimelineLogObserver.stopObserving`: `_disconnectFromTimeline`, then
`_disconnectFromTimelineObject` for every timeline object. -/
def stopObserving (s : ObsState) (t : Timeline) : ObsState × Option PyErr :=
  stopLoop (disconnectFromTimeline s) t.timeline_objects

/-- C9: on every timeline holding at least one clip, `startObserving` raises
`NameError`, because `_connectToTimelineObject` evaluates the never-bound
local name `track_object`; observation is never established on a non-empty
timeline. -/
theorem startObserving_nameError (s : ObsState) (t : Timeline)
    (h : t.timeline_objects ≠ []) :
    (startObserving s t).2 = some PyErr.nameError := by
  unfold startObserving
  cases ht : t.timeline_objects with
  | nil => exact absurd ht h
  | cons o rest => rfl

/-- Witness for C9: a timeline with one layer holding one clip. -/
theorem startObserving_nameError_witness :
    (startObserving obsInit ⟨[⟨0, [7]⟩]⟩).2 = some PyErr.nameError :=
  startObserving_nameError obsInit ⟨[⟨0, [7]⟩]⟩ (by decide)

/-- A timeline with a single layer and no clips: the only kind of timeline on
which `startObserving` completes without raising. -/
def T1 : Timeline := ⟨[⟨0, []⟩]⟩

/-- C6 counterexample: after `startObserving` and then `stopObserving` on a
concrete timeline with one (clip-free) layer, the two layer-level structural
handlers installed by `startObserving` are still connected —
`_disconnectFromTimeline` calls `disconnect_by_func` on the timeline object
instead of on the layers — so `stopObserving` is not an inverse and
listeners installed by the observer remain connected afterwards. -/
theorem stopObserving_not_inverse :
    (stopObserving (startObserving obsInit T1).1 T1).1.layerHandlers =
      [(0, "_timelineObjectAddedCb"), (0, "_timelineObjectRemovedCb")] ∧
    (stopObserving (startObserving obsInit T1).1 T1).1 ≠ obsInit := by
  exact ⟨rfl, by decide⟩

/-- C6 amended: on any timeline with no clips (the only ones on which
`startObserving` completes, by C9), `stopObserving` leaves every layer-level
handler installed by `startObserving` connected; it only clears what was
connected on the timeline object itself and the trackers — both empty — so
it is not an inverse of `startObserving` whenever the timeline has at least
one layer. -/
theorem stopObserving_spec (t : Timeline) (hobj : t.timeline_objects = []) :
    (startObserving obsInit t).2 = none ∧
    (stopObserving (startObserving obsInit t).1 t).1.layerHandlers =
      (t.layers.map (fun l =>
        [(l.lid, "_timelineObjectAddedCb"),
         (l.lid, "_timelineObjectRemovedCb")])).join ∧
    (stopObserving (startObserving obsInit t).1 t).1.tlObjHandlers = [] ∧
    (stopObserving (startObserving obsInit t).1 t).1.timelineHandlers = [] ∧
    (stopObserving (startObserving obsInit t).1 t).1.trackers = [] := by
  have hstart : startObserving obsInit t = (connectToTimeline obsInit t, none) := by
    unfold startObserving
    rw [hobj]
  have hstop : stopObserving (connectToTimeline obsInit t) t =
      (disconnectFromTimeline (connectToTimeline obsInit t), none) := by
    unfold stopObserving
    rw [hobj]
    rfl
  rw [hstart]
  dsimp only
  rw [hstop]
  dsimp only
  unfold disconnectFromTimeline connectToTimeline obsInit
  simp

/-- Witness for C6 amended at the concrete clip-free timeline `T1`. -/
theorem stopObserving_spec_witness :
    (startObserving obsInit T1).2 = none ∧
    (stopObserving (startObserving obsInit T1).1 T1).1.layerHandlers =
      (T1.layers.map (fun l =>
        [(l.lid, "_timelineObjectAddedCb"),
         (l.lid, "_timelineObjectRemovedCb")])).join ∧
    (stopObserving (startObserving obsInit T1).1 T1).1.tlObjHandlers = [] ∧
    (stopObserving (startObserving obsInit T1).1 T1).1.timelineHandlers = [] ∧
    (stopObserving (startObserving obsInit T1).1 T1).1.trackers = [] :=
  stopObserving_spec T1 rfl

end UndoTimeline

end Pitivi
